import Mathlib

/-!
Shallow embedding of the resilience layer of the InterviewGenie repository:
the typed event dispatcher (src/lib/events.ts), the audio capture pipeline
(src/services/AudioManager.ts) and the streaming session manager
(src/services/GeminiConnectionManager.ts), together with proofs of the
behavioural claims stated about them.

Modelling conventions:
* JavaScript numbers holding sample amplitudes are modelled as rationals;
  the transcendental library calls `Math.sqrt` and `Math.log10` are passed
  in as oracle parameters, since no claim depends on their values.
* Timestamps (`Date.now()`) are explicit integer parameters threaded
  through the operations ("now", in milliseconds).
* Stateful methods become pure functions from a state record to a state
  record; a method that can `throw` additionally returns the thrown error;
  event emission returns the per-handler invocation log.
* The browser handles (AudioContext, MediaStream, ScriptProcessorNode,
  WebSocket) are modelled by the parts of their state the code inspects.
-/

namespace InterviewGenie

/-! ## Data types (src/types/audio.ts)

Note: the `AudioStatus` union in src/types/audio.ts omits the
`'initializing'` member even though AudioManager.initialize assigns it
(line 70); the spec lists Initializing as a state, so the value is
included here.  -/

inductive AudioStatus where
  | inactive
  | initializing
  | active
  | recovering
  | error
deriving DecidableEq, Repr

inductive AudioErrorType where
  | CONTEXT_CREATION_FAILED
  | STREAM_CREATION_FAILED
  | PIPELINE_SETUP_FAILED
  | STREAM_ENDED
  | UNKNOWN
deriving DecidableEq, Repr

structure AudioError where
  type : AudioErrorType
  message : String
  recoverable : Bool := true
deriving DecidableEq, Repr

structure AudioConfig where
  sampleRate : ℕ
  echoCancellation : Bool
  noiseSuppression : Bool
  channelCount : ℕ
  latencyHint : String
  autoGainControl : Bool
deriving DecidableEq, Repr

/-- Caller-supplied overrides for `initialize` (TypeScript
`Partial<AudioConfig>`): each field optionally overrides the default. -/
structure AudioConfigOverride where
  sampleRate : Option ℕ := none
  echoCancellation : Option Bool := none
  noiseSuppression : Option Bool := none
  channelCount : Option ℕ := none
  latencyHint : Option String := none
  autoGainControl : Option Bool := none
deriving DecidableEq, Repr

/-- Spread merge `{ ...defaults, ...config }` of AudioManager.initialize. -/
def mergeConfig (base : AudioConfig) (o : AudioConfigOverride) : AudioConfig where
  sampleRate := o.sampleRate.getD base.sampleRate
  echoCancellation := o.echoCancellation.getD base.echoCancellation
  noiseSuppression := o.noiseSuppression.getD base.noiseSuppression
  channelCount := o.channelCount.getD base.channelCount
  latencyHint := o.latencyHint.getD base.latencyHint
  autoGainControl := o.autoGainControl.getD base.autoGainControl

/-- AudioManager.defaultConfig (AudioManager.ts lines 46-53). -/
def defaultConfig : AudioConfig where
  sampleRate := 44100
  echoCancellation := true
  noiseSuppression := true
  channelCount := 1
  latencyHint := "interactive"
  autoGainControl := true

structure AudioMetrics where
  rms : ℚ
  peak : ℚ
  average : ℚ
  clipping : Bool
  snr : ℚ
deriving DecidableEq, Repr

structure AudioData where
  buffer : List ℚ
  metrics : AudioMetrics
  timestamp : ℤ
  channels : ℕ
deriving DecidableEq, Repr

/-! ## Per-block metrics (AudioManager.calculateAudioMetrics, lines 225-252)

`sq` and `lg` stand for the library primitives `Math.sqrt` and
`Math.log10`; every claim about this function is independent of them. -/

/-- AudioManager.calculateSNR (lines 247-252): noiseFloor fixed at 1e-4. -/
def calculateSNR (lg : ℚ → ℚ) (rms : ℚ) : ℚ :=
  10 * lg ((rms * rms) / ((1 / 10000) * (1 / 10000)))

/-- The accumulation loop of calculateAudioMetrics: running
(sumSquares, peak) over the buffer. -/
def metricsLoop (buffer : List ℚ) : ℚ × ℚ :=
  buffer.foldl (fun acc x => (acc.1 + |x| * |x|, max acc.2 |x|)) (0, 0)

/-- AudioManager.calculateAudioMetrics (lines 225-245). -/
def calculateAudioMetrics (sq lg : ℚ → ℚ) (buffer : List ℚ) : AudioMetrics :=
  let acc := metricsLoop buffer
  let sumSquares := acc.1
  let peak := acc.2
  let rms := sq (sumSquares / buffer.length)
  let average := sumSquares / buffer.length
  { rms := rms
    peak := peak
    average := average
    clipping := decide (peak > 99 / 100)
    snr := calculateSNR lg rms }

/-! ## Typed event dispatcher (src/lib/events.ts)

A handler is a function that may throw (`Except String Unit`); `emit`
wraps each invocation in try/catch, turning a thrown exception into a
logged message (`some msg`) instead of propagating it.  The per-key
callback collection is a JavaScript `Set`, which iterates in insertion
order; it is modelled by the list of callbacks in subscription order. -/

def EventCallback (α : Type) : Type := α → Except String Unit

/-- One loop body of `emit`: `try { callback(data) } catch (e) { log }`
(events.ts lines 45-51).  `none` = the handler returned normally,
`some msg` = it threw and the exception was caught and logged. -/
def invokeIsolated {α : Type} (cb : EventCallback α) (d : α) : Option String :=
  match cb d with
  | Except.ok _ => none
  | Except.error e => some e

/-- The `callbacks.forEach` loop of `emit` (events.ts lines 42-53),
returning the invocation log, one entry per subscribed handler. -/
def emitList {α : Type} : List (EventCallback α) → α → List (Option String)
  | [], _ => []
  | cb :: rest, d => invokeIsolated cb d :: emitList rest d

inductive EventKey where
  | statusChange
  | error
  | audioData
  | metricsUpdate
deriving DecidableEq, Repr

/-- Payload type of each event key (the EventMap of events.ts). -/
def Payload : EventKey → Type
  | EventKey.statusChange => AudioStatus
  | EventKey.error => AudioError
  | EventKey.audioData => AudioData
  | EventKey.metricsUpdate => AudioMetrics

/-- The dispatcher's listener map, one callback list (in subscription
order) per event key. -/
structure EventDispatcher where
  statusChange : List (EventCallback AudioStatus)
  error : List (EventCallback AudioError)
  audioData : List (EventCallback AudioData)
  metricsUpdate : List (EventCallback AudioMetrics)

def listenersOf (d : EventDispatcher) : (k : EventKey) → List (EventCallback (Payload k))
  | EventKey.statusChange => d.statusChange
  | EventKey.error => d.error
  | EventKey.audioData => d.audioData
  | EventKey.metricsUpdate => d.metricsUpdate

/-- EventDispatcher.listenerCount (events.ts lines 71-73). -/
def listenerCount (d : EventDispatcher) (k : EventKey) : ℕ :=
  (listenersOf d k).length

/-- EventDispatcher.removeAllListeners with no argument
(events.ts lines 63-69): `this.listeners.clear()`. -/
def emptyDispatcher : EventDispatcher where
  statusChange := []
  error := []
  audioData := []
  metricsUpdate := []

/-- EventDispatcher.emit (events.ts lines 42-53) on a given key. -/
def emitKey (d : EventDispatcher) (k : EventKey) (x : Payload k) : List (Option String) :=
  emitList (listenersOf d k) x

/-! ### Dispatcher lemmas -/

theorem emitList_append {α : Type} (l1 l2 : List (EventCallback α)) (d : α) :
    emitList (l1 ++ l2) d = emitList l1 d ++ emitList l2 d := by
  induction l1 with
  | nil => rfl
  | cons cb rest ih => simp [emitList, ih]

theorem emitList_length {α : Type} (l : List (EventCallback α)) (d : α) :
    (emitList l d).length = l.length := by
  induction l with
  | nil => rfl
  | cons cb rest ih => simp [emitList, ih]

/-! ### Metrics lemmas -/

theorem metricsLoop_peak_eq (buffer : List ℚ) :
    (metricsLoop buffer).2 = buffer.foldl (fun p x => max p |x|) 0 := by
  unfold metricsLoop
  generalize 0 + (0 : ℚ) * 0 = z
  have h : ∀ (l : List ℚ) (a p : ℚ),
      (l.foldl (fun acc x => (acc.1 + |x| * |x|, max acc.2 |x|)) (a, p)).2
        = l.foldl (fun p x => max p |x|) p := by
    intro l
    induction l with
    | nil => intro a p; rfl
    | cons x rest ih => intro a p; simpa using ih (a + |x| * |x|) (max p |x|)
  simpa using h buffer 0 0

theorem peakFold_init_le (l : List ℚ) (p : ℚ) :
    p ≤ l.foldl (fun a x => max a |x|) p := by
  induction l generalizing p with
  | nil => simp
  | cons x rest ih => exact le_trans (le_max_left p |x|) (ih (max p |x|))

theorem peakFold_mem_le (l : List ℚ) (x : ℚ) :
    x ∈ l → ∀ p, |x| ≤ l.foldl (fun a x => max a |x|) p := by
  induction l with
  | nil => intro hx; cases hx
  | cons y rest ih =>
      intro hx p
      rcases List.mem_cons.mp hx with h | h
      · subst h
        exact le_trans (le_max_right p |x|) (peakFold_init_le rest (max p |x|))
      · exact ih h (max p |y|)

theorem peakFold_gt_iff (l : List ℚ) (c : ℚ) :
    ∀ p, (c < l.foldl (fun a x => max a |x|) p ↔ c < p ∨ ∃ x ∈ l, c < |x|) := by
  induction l with
  | nil => intro p; simp
  | cons y rest ih =>
      intro p
      rw [List.foldl_cons, ih (max p |y|)]
      constructor
      · intro h
        rcases h with h | ⟨x, hx, hc⟩
        · rcases lt_max_iff.mp h with h | h
          · exact Or.inl h
          · exact Or.inr ⟨y, List.mem_cons_self y rest, h⟩
        · exact Or.inr ⟨x, List.mem_cons_of_mem y hx, hc⟩
      · intro h
        rcases h with h | ⟨x, hx, hc⟩
        · exact Or.inl (lt_max_iff.mpr (Or.inl h))
        · rcases List.mem_cons.mp hx with h2 | h2
          · subst h2; exact Or.inl (lt_max_iff.mpr (Or.inr hc))
          · exact Or.inr ⟨x, h2, hc⟩

/-! ## Audio pipeline state (src/services/AudioManager.ts)

The browser handles are modelled by the parts the code inspects:
`audioContext` by its `state` (cleanup checks `state !== 'closed'`),
the stream / source node / processor node by presence flags. -/

inductive ContextState where
  | running
  | suspended
  | closed
deriving DecidableEq, Repr

structure AudioState where
  dispatcher : EventDispatcher
  audioContext : Option ContextState
  mediaStreamSource : Bool
  processor : Bool
  stream : Bool
  status : AudioStatus
  retryCount : ℕ
  currentConfig : AudioConfig

/-- AudioManager.maxRetries (line 43). -/
def maxRetries : ℕ := 3

/-- Freshly constructed AudioManager (constructor, lines 55-59). -/
def audioInitial : AudioState where
  dispatcher := emptyDispatcher
  audioContext := none
  mediaStreamSource := false
  processor := false
  stream := false
  status := AudioStatus.inactive
  retryCount := 0
  currentConfig := defaultConfig

/-- AudioManager.updateStatus (lines 353-356): set the status field and
emit `statusChange`; returns the new state and the emit's invocation log. -/
def updateStatus (s : AudioState) (st : AudioStatus) :
    AudioState × List (Option String) :=
  ({ s with status := st }, emitKey s.dispatcher EventKey.statusChange st)

/-- AudioManager.cleanup (lines 287-320): removes all listeners first,
releases the processor, source and stream, closes the context unless its
state is already `'closed'` (in which case the handle is kept, see lines
309-316), transitions to Inactive (the emit now reaches the already
cleared listener map) and resets the retry counter.  Returns the new
state and the invocation log of the final `statusChange` emit. -/
def audioCleanup (s : AudioState) : AudioState × List (Option String) :=
  let cleared : EventDispatcher := emptyDispatcher
  let ctx : Option ContextState :=
    match s.audioContext with
    | some ContextState.closed => some ContextState.closed
    | _ => none
  ({ dispatcher := cleared
     audioContext := ctx
     mediaStreamSource := false
     processor := false
     stream := false
     status := AudioStatus.inactive
     retryCount := 0
     currentConfig := s.currentConfig },
   emitKey cleared EventKey.statusChange AudioStatus.inactive)

/-- The synchronous part of AudioManager.attemptRecovery before the
backoff wait and the re-entrant `initialize` (lines 269-277): transition
to Recovering (emitting on the still-subscribed listeners), then
`cleanup()`. -/
def attemptRecoveryPreInit (s : AudioState) : AudioState :=
  (audioCleanup (updateStatus s AudioStatus.recovering).1).1

/-- Result of a (recursive) run of AudioManager.initialize under an
injected fault schedule. -/
structure InitRun where
  state : AudioState
  attempts : ℕ
  threw : Bool

/-- AudioManager.initialize (lines 68-80) together with handleError
(lines 254-267) and attemptRecovery (lines 269-282), under an injected
fault schedule: the next `failures` setup attempts fail inside
`setupAudioStream` with the recoverable STREAM_CREATION_FAILED error
(after `setupAudioContext` succeeded), subsequent attempts succeed.
`fuel` bounds the recursion depth (`initialize` → `handleError` →
`attemptRecovery` → `initialize` is unbounded recursion in the source);
`none` means the fuel ran out before the run settled.

On each call the method first re-merges the caller config over the
defaults and transitions to Initializing — there is no guard against
re-entrant calls (lines 68-70).  `handleError` re-raises the error
(`threw = true`) exactly when it is non-recoverable or the retry budget
is exhausted; otherwise it increments the retry counter and recovers.
Note that `attemptRecovery` invokes `cleanup()`, which resets the retry
counter to 0 (line 319) right after `handleError` incremented it. -/
def runInitialize (cfg : AudioConfigOverride) :
    (failures fuel : ℕ) → AudioState → Option InitRun
  | _, 0, _ => none
  | failures, fuel + 1, s =>
    let s1 : AudioState := { s with currentConfig := mergeConfig defaultConfig cfg }
    let s2 : AudioState := (updateStatus s1 AudioStatus.initializing).1
    match failures with
    | 0 =>
        -- setupAudioContext, setupAudioStream and setupAudioPipeline succeed
        let s3 : AudioState :=
          { s2 with
            audioContext := some ContextState.running
            stream := true
            mediaStreamSource := true
            processor := true }
        some { state := (updateStatus s3 AudioStatus.active).1
               attempts := 1
               threw := false }
    | f + 1 =>
        -- setupAudioContext succeeded, setupAudioStream threw the
        -- recoverable STREAM_CREATION_FAILED error → handleError
        let s3 : AudioState := { s2 with audioContext := some ContextState.running }
        if s3.retryCount < maxRetries then
          let s4 : AudioState := { s3 with retryCount := s3.retryCount + 1 }
          Option.map (fun r => { r with attempts := r.attempts + 1 })
            (runInitialize cfg f fuel (attemptRecoveryPreInit s4))
        else
          some { state := (updateStatus s3 AudioStatus.error).1
                 attempts := 1
                 threw := true }

/-! ## Streaming session manager (src/services/GeminiConnectionManager.ts)

The outbound payload type (`BidiRequest`) is opaque to the manager, so
the state is parameterised over it (`M`).  Whether a `ws.send` succeeds
is decided by the environment; it is injected as the oracle
`sendOk : M → Bool`.  The constructor arguments `apiKey` and
`defaultConfig` and the `sessionConfig` field only feed `connect` /
`buildWebSocketUrl`, which no claim touches; they are not modelled. -/

inductive GeminiConnectionStatus where
  | disconnected
  | connecting
  | connected
  | reconnecting
  | error
deriving DecidableEq, Repr

structure GeminiError where
  message : String
  recoverable : Bool
  code : Option ℤ := none
deriving DecidableEq, Repr

/-- GeminiConnectionManager.createError (lines 267-274). -/
def createError (message : String) (recoverable : Bool) : GeminiError :=
  { message := message, recoverable := recoverable, code := none }

/-- The error thrown by sendMessage when the rate limit is hit (line 233). -/
def rateLimitError : GeminiError := createError "Rate limit exceeded" false

/-- The error thrown by processMessageQueue on a send failure (line 254). -/
def sendFailedError : GeminiError := createError "Failed to send message" true

/-- GeminiConnectionManager.handleResponseError (lines 164-169):
recoverable iff the remote code is ≥ 500, the code is copied onto the
error. -/
def handleResponseError (message : String) (code : ℤ) : GeminiError :=
  { createError message (decide (500 ≤ code)) with code := some code }

/-- A successfully parsed inbound frame, by its envelope key
(handleWebSocketMessage dispatches on which key is present, lines
131-147).  `empty` is a frame with neither key (or with a missing /
zero / absent `code`, handled below). -/
inductive BidiResponse where
  | serverContent (parts : List String) (interrupted : Bool)
  | responseError (message : String) (code : ℤ)
  | empty
deriving DecidableEq, Repr

inductive GeminiEvent where
  | statusChange (s : GeminiConnectionStatus)
  | message (content : String) (timestamp : ℤ)
  | interrupted
  | error (e : GeminiError)
deriving DecidableEq, Repr

/-- GeminiConnectionManager.handleWebSocketMessage (lines 127-151): the
argument is the result of `JSON.parse` (`Except.error` = the parse or the
field accesses threw, caught at line 148).  A content frame emits
`message` with the concatenated part texts and, when the frame signals
interruption, `interrupted`; an error frame with a truthy (non-zero)
code emits the converted ConnectionError; anything else emits nothing. -/
def handleWebSocketMessage (now : ℤ) :
    Except Unit BidiResponse → List GeminiEvent
  | Except.error _ =>
      [GeminiEvent.error (createError "Failed to parse WebSocket message" false)]
  | Except.ok (BidiResponse.serverContent parts interrupted) =>
      GeminiEvent.message (String.join parts) now ::
        (if interrupted then [GeminiEvent.interrupted] else [])
  | Except.ok (BidiResponse.responseError message code) =>
      if code ≠ 0 then [GeminiEvent.error (handleResponseError message code)] else []
  | Except.ok BidiResponse.empty => []

/-- WebSocket.readyState values the code inspects. -/
inductive WsReadyState where
  | connecting
  | opened
  | closing
  | closed
deriving DecidableEq, Repr

structure GeminiState (M : Type) where
  ws : Option WsReadyState
  status : GeminiConnectionStatus
  messageQueue : List M
  reconnectAttempts : ℕ
  heartbeatInterval : Option ℤ
  messageTimestamps : List ℤ
deriving DecidableEq

/-- maxMessagesPerMinute (line 33). -/
def maxMessagesPerMinute : ℕ := 100

/-- messageWindow in milliseconds (line 34). -/
def messageWindow : ℤ := 60000

/-- reconnectBaseDelay in milliseconds (line 27). -/
def reconnectBaseDelay : ℕ := 1000

/-- maxReconnectAttempts (line 26). -/
def maxReconnectAttempts : ℕ := 5

/-- Freshly constructed GeminiConnectionManager (lines 22-35). -/
def geminiInitial (M : Type) : GeminiState M where
  ws := none
  status := GeminiConnectionStatus.disconnected
  messageQueue := []
  reconnectAttempts := 0
  heartbeatInterval := none
  messageTimestamps := []

/-- GeminiConnectionManager.canSendMessage (lines 259-265): drops the
timestamps that have aged out of the trailing window (a mutation kept in
the state) and tests the cap.  Returns (allowed, new state). -/
def canSendMessage {M : Type} (now : ℤ) (s : GeminiState M) : Bool × GeminiState M :=
  let kept := s.messageTimestamps.filter (fun t => now - t < messageWindow)
  (decide (kept.length < maxMessagesPerMinute), { s with messageTimestamps := kept })

/-- Outcome of the `while` loop of processMessageQueue (lines 245-256):
the remaining queue, the remaining timestamp window, the messages sent
(in order), the messages whose send was attempted (in order), and
whether a send threw (the recoverable send error re-raised at line
254). -/
structure FlushResult (M : Type) where
  queue : List M
  timestamps : List ℤ
  sent : List M
  attempted : List M
  sendFailed : Bool

/-- The `while (messageQueue.length > 0 && this.canSendMessage())` loop
of processMessageQueue: pop the head, `ws.send` it; on success append a
send timestamp and continue; on failure push the message back to the
head and stop, re-raising a recoverable send error.  (The loop is
synchronous, so the single `now` stands for each iteration's
`Date.now()`.) -/
def flushLoop {M : Type} (now : ℤ) (sendOk : M → Bool) :
    List M → List ℤ → FlushResult M
  | [], ts => { queue := [], timestamps := ts, sent := [], attempted := [], sendFailed := false }
  | m :: rest, ts =>
      let kept := ts.filter (fun t => now - t < messageWindow)
      if kept.length < maxMessagesPerMinute then
        if sendOk m then
          let r := flushLoop now sendOk rest (kept ++ [now])
          { r with sent := m :: r.sent, attempted := m :: r.attempted }
        else
          { queue := m :: rest, timestamps := kept, sent := [],
            attempted := [m], sendFailed := true }
      else
        { queue := m :: rest, timestamps := kept, sent := [],
          attempted := [], sendFailed := false }

/-- GeminiConnectionManager.processMessageQueue (lines 240-257): no-op
unless Connected with a live socket and a non-empty queue; otherwise
runs the flush loop and stores the remaining queue and window. -/
def processMessageQueue {M : Type} (now : ℤ) (sendOk : M → Bool)
    (s : GeminiState M) : GeminiState M × FlushResult M :=
  if s.status ≠ GeminiConnectionStatus.connected ∨ s.ws.isNone ∨ s.messageQueue.isEmpty then
    (s, { queue := s.messageQueue, timestamps := s.messageTimestamps,
          sent := [], attempted := [], sendFailed := false })
  else
    let r := flushLoop now sendOk s.messageQueue s.messageTimestamps
    ({ s with messageQueue := r.queue, messageTimestamps := r.timestamps }, r)

/-- Result of a sendMessage call: the new state, the error it threw (if
any) and the messages actually sent during the immediate flush. -/
structure SendResult (M : Type) where
  state : GeminiState M
  thrown : Option GeminiError
  sent : List M

/-- GeminiConnectionManager.sendMessage (lines 231-238): throws the
non-recoverable rate-limit error without enqueuing when the sliding
window is at the cap; otherwise enqueues and flushes immediately,
re-raising the recoverable send error if the flush fails. -/
def sendMessage {M : Type} (now : ℤ) (sendOk : M → Bool) (m : M)
    (s : GeminiState M) : SendResult M :=
  let c := canSendMessage now s
  if c.1 then
    let s2 : GeminiState M := { c.2 with messageQueue := c.2.messageQueue ++ [m] }
    let pr := processMessageQueue now sendOk s2
    { state := pr.1
      thrown := if pr.2.sendFailed then some sendFailedError else none
      sent := pr.2.sent }
  else
    { state := c.2, thrown := some rateLimitError, sent := [] }

/-- The reconnection backoff (attemptReconnection lines 200-203):
`min(reconnectBaseDelay * 2^attempts, 30000)` milliseconds. -/
def reconnectDelay (n : ℕ) : ℕ :=
  min (reconnectBaseDelay * 2 ^ n) 30000

/-- The synchronous prefix of attemptReconnection (lines 197-206):
transition to Reconnecting, compute the backoff from the current
counter, wait, then increment the counter (the subsequent
`establishConnection` attempt is driven by the environment).  Returns
the post-state and the delay waited. -/
def attemptReconnectionStep {M : Type} (s : GeminiState M) : GeminiState M × ℕ :=
  ({ s with status := GeminiConnectionStatus.reconnecting
            reconnectAttempts := s.reconnectAttempts + 1 },
   reconnectDelay s.reconnectAttempts)

/-- GeminiConnectionManager.onConnectionEstablished (lines 176-180):
transition to Connected, reset the retry counter to 0, flush the queue. -/
def onConnectionEstablished {M : Type} (now : ℤ) (sendOk : M → Bool)
    (s : GeminiState M) : GeminiState M × FlushResult M :=
  processMessageQueue now sendOk
    { s with status := GeminiConnectionStatus.connected, reconnectAttempts := 0 }

/-- GeminiConnectionManager.cleanup (lines 276-289): stop the heartbeat,
clear the queue and the rate-limit window, drop the socket (closing it
with the normal-closure code if open), transition to Disconnected.
The reconnect counter is left untouched. -/
def geminiCleanup {M : Type} (s : GeminiState M) : GeminiState M :=
  { s with heartbeatInterval := none
           messageQueue := []
           messageTimestamps := []
           ws := none
           status := GeminiConnectionStatus.disconnected }

/-- A connected manager with a live socket and no traffic yet (the state
right after a successful first `connect`). -/
def gemConnected (M : Type) : GeminiState M :=
  { geminiInitial M with
    ws := some WsReadyState.opened
    status := GeminiConnectionStatus.connected }

/-- Folds a batch of sendMessage calls (all at time `now`), tracking
whether every call so far completed without throwing. -/
def iterateSends {M : Type} (now : ℤ) (sendOk : M → Bool) (msgs : List M)
    (s : GeminiState M) : GeminiState M × Bool :=
  msgs.foldl
    (fun acc m =>
      let r := sendMessage now sendOk m acc.1
      (r.state, acc.2 && decide (r.thrown = none)))
    (s, true)

/-! ## Claim C7 -/

/-- C7: for every event key, emit invokes all currently subscribed
handlers synchronously in subscription order (one log entry per
handler, and around any handler the log splits as the logs of the
handlers before it, its own isolated invocation, and the handlers after
it — so a handler that throws neither prevents the remaining handlers
from running nor propagates to the emitter, `emitKey` having no error
outcome). -/
theorem emit_isolates_and_reaches_all (d : EventDispatcher) (k : EventKey)
    (x : Payload k) :
    (emitKey d k x).length = listenerCount d k
    ∧ ∀ pre cb post, listenersOf d k = pre ++ cb :: post →
        emitKey d k x = emitList pre x ++ invokeIsolated cb x :: emitList post x := by
  constructor
  · exact emitList_length _ _
  · intro pre cb post h
    unfold emitKey
    rw [h, emitList_append]
    rfl

/-- A handler that always throws. -/
def cbBoom : EventCallback AudioStatus := fun _ => Except.error "boom"

/-- A handler that always returns normally. -/
def cbOk : EventCallback AudioStatus := fun _ => Except.ok ()

/-- A dispatcher with a throwing handler subscribed before a normal one. -/
def dispatcherEx : EventDispatcher where
  statusChange := [cbBoom, cbOk]
  error := []
  audioData := []
  metricsUpdate := []

/-- C7 witness: with a throwing handler subscribed first, emit still
invokes the second handler; the throw is logged, not propagated. -/
theorem emit_isolates_and_reaches_all_witness :
    emitKey dispatcherEx EventKey.statusChange AudioStatus.active =
      [some "boom", none] := by
  rw [(emit_isolates_and_reaches_all dispatcherEx EventKey.statusChange
        AudioStatus.active).2 [] cbBoom [cbOk] rfl]
  rfl

/-! ## Claim C8 -/

/-- C8: every inbound remote error frame with a non-zero code is
converted into a ConnectionError carrying that message and code and
emitted as an error event, with recoverable = true iff code ≥ 500. -/
theorem remote_error_frame_converted (now : ℤ) (msg : String) (code : ℤ)
    (h : code ≠ 0) :
    handleWebSocketMessage now (Except.ok (BidiResponse.responseError msg code)) =
      [GeminiEvent.error
        { message := msg, recoverable := decide (500 ≤ code), code := some code }]
    ∧ ((handleResponseError msg code).recoverable = true ↔ 500 ≤ code) := by
  constructor
  · simp [handleWebSocketMessage, h, handleResponseError, createError]
  · simp [handleResponseError, createError]

/-- C8 witness: the frame with message "overloaded" and code 503 yields
exactly one error event, with recoverable = true. -/
theorem remote_error_frame_converted_witness :
    handleWebSocketMessage 0 (Except.ok (BidiResponse.responseError "overloaded" 503)) =
      [GeminiEvent.error { message := "overloaded", recoverable := true, code := some 503 }]
    ∧ (handleResponseError "overloaded" 503).recoverable = true := by
  have h := remote_error_frame_converted 0 "overloaded" 503 (by decide)
  exact ⟨h.1.trans (by norm_num), h.2.mpr (by norm_num)⟩

/-! ## Claim C9 -/

/-- C9: for every audio block, the metrics satisfy clipping = true iff
the peak absolute sample amplitude exceeds 0.99 of full scale — in both
senses: clipping iff the computed peak exceeds 99/100, the computed peak
bounds every sample's absolute amplitude, and clipping iff some sample's
absolute amplitude exceeds 99/100.  Holds for every choice of the sqrt
and log10 oracles. -/
theorem clipping_iff_peak_exceeds (sq lg : ℚ → ℚ) (buffer : List ℚ) :
    ((calculateAudioMetrics sq lg buffer).clipping = true ↔
      (99 : ℚ) / 100 < (calculateAudioMetrics sq lg buffer).peak)
    ∧ ((calculateAudioMetrics sq lg buffer).clipping = true ↔
      ∃ x ∈ buffer, (99 : ℚ) / 100 < |x|)
    ∧ ∀ x ∈ buffer, |x| ≤ (calculateAudioMetrics sq lg buffer).peak := by
  have hpeak : (calculateAudioMetrics sq lg buffer).peak
      = buffer.foldl (fun p x => max p |x|) 0 := metricsLoop_peak_eq buffer
  have hclip : (calculateAudioMetrics sq lg buffer).clipping
      = decide ((99 : ℚ) / 100 < (metricsLoop buffer).2) := rfl
  refine ⟨?_, ?_, ?_⟩
  · rw [hclip, hpeak]
    simp only [decide_eq_true_eq]
    rw [metricsLoop_peak_eq buffer]
  · rw [hclip]
    simp only [decide_eq_true_eq]
    rw [metricsLoop_peak_eq buffer]
    constructor
    · intro h
      rcases (peakFold_gt_iff buffer ((99 : ℚ) / 100) 0).mp h with h0 | h0
      · norm_num at h0
      · exact h0
    · intro h
      exact (peakFold_gt_iff buffer ((99 : ℚ) / 100) 0).mpr (Or.inr h)
  · intro x hx
    rw [hpeak]
    exact peakFold_mem_le buffer x hx 0

/-- C9 witness: on the concrete block [1/2, -1] the peak exceeds 0.99,
so clipping is reported and the sample bound holds. -/
theorem clipping_iff_peak_exceeds_witness :
    (calculateAudioMetrics id id [1 / 2, -1]).clipping = true
    ∧ |(-1 : ℚ)| ≤ (calculateAudioMetrics id id [1 / 2, -1]).peak := by
  have h := clipping_iff_peak_exceeds id id [1 / 2, -1]
  exact ⟨h.2.1.mpr ⟨-1, by norm_num, by norm_num⟩, h.2.2 (-1) (by norm_num)⟩

/-! ## Claim C4 -/

theorem processMessageQueue_preserves {M : Type} (now : ℤ) (sendOk : M → Bool)
    (s : GeminiState M) :
    (processMessageQueue now sendOk s).1.reconnectAttempts = s.reconnectAttempts
    ∧ (processMessageQueue now sendOk s).1.status = s.status
    ∧ (processMessageQueue now sendOk s).1.ws = s.ws
    ∧ (processMessageQueue now sendOk s).1.heartbeatInterval = s.heartbeatInterval := by
  unfold processMessageQueue
  split <;> simp

/-- C4: each reconnection attempt waits min(1000 × 2^n, 30000) ms where
n is the current retry counter, and then increments the counter; the
delay is monotonically non-decreasing in the attempt number and capped
at 30000 ms; a successful connection resets the counter to 0. -/
theorem reconnect_backoff (M : Type) :
    (∀ s : GeminiState M,
        (attemptReconnectionStep s).2 = reconnectDelay s.reconnectAttempts
        ∧ (attemptReconnectionStep s).1.reconnectAttempts = s.reconnectAttempts + 1
        ∧ (attemptReconnectionStep s).1.status = GeminiConnectionStatus.reconnecting)
    ∧ (∀ n, reconnectDelay n = min (1000 * 2 ^ n) 30000)
    ∧ (∀ n m, n ≤ m → reconnectDelay n ≤ reconnectDelay m)
    ∧ (∀ n, reconnectDelay n ≤ 30000)
    ∧ (∀ (now : ℤ) (sendOk : M → Bool) (s : GeminiState M),
        (onConnectionEstablished now sendOk s).1.reconnectAttempts = 0
        ∧ (onConnectionEstablished now sendOk s).1.status
            = GeminiConnectionStatus.connected) := by
  refine ⟨fun s => ⟨rfl, rfl, rfl⟩, fun n => rfl, ?_, fun n => min_le_right _ _, ?_⟩
  · intro n m h
    exact min_le_min
      (Nat.mul_le_mul_left _ (Nat.pow_le_pow_right (by norm_num) h)) (le_refl _)
  · intro now sendOk s
    unfold onConnectionEstablished
    exact ⟨(processMessageQueue_preserves now sendOk _).1,
           (processMessageQueue_preserves now sendOk _).2.1⟩

/-- C4 witness: the first attempt waits 1000 ms, the delay is monotone
and capped on concrete attempt numbers, and a successful connection
resets the counter on a concrete state. -/
theorem reconnect_backoff_witness :
    (attemptReconnectionStep (gemConnected ℕ)).2 = 1000
    ∧ reconnectDelay 3 ≤ reconnectDelay 7
    ∧ reconnectDelay 20 ≤ 30000
    ∧ (onConnectionEstablished 0 (fun _ => true) (gemConnected ℕ)).1.reconnectAttempts = 0 := by
  have h := reconnect_backoff ℕ
  exact ⟨((h.1 (gemConnected ℕ)).1).trans (by norm_num [reconnectDelay, reconnectBaseDelay, gemConnected, geminiInitial]),
         h.2.2.1 3 7 (by norm_num),
         h.2.2.2.1 20,
         (h.2.2.2.2 0 (fun _ => true) (gemConnected ℕ)).1⟩

/-! ## Claim C10 -/

/-- C10: after AudioManager.cleanup, every event key has zero
subscribers; since the listener map is cleared before the final status
transition, the statusChange Inactive emit performed by cleanup invokes
no handler (its invocation log is empty); and the state a recovery
attempt hands to the retried initialize (Recovering transition followed
by cleanup) has no remaining listeners either. -/
theorem cleanup_drops_all_listeners (s : AudioState) (k : EventKey) :
    listenerCount (audioCleanup s).1.dispatcher k = 0
    ∧ (audioCleanup s).2 = []
    ∧ listenerCount (attemptRecoveryPreInit s).dispatcher k = 0 := by
  refine ⟨?_, rfl, ?_⟩ <;> cases k <;> rfl

/-! ## Claim C3 -/

theorem flushLoop_fifo {M : Type} (now : ℤ) (sendOk : M → Bool) :
    ∀ (q : List M) (ts : List ℤ),
      (flushLoop now sendOk q ts).sent ++ (flushLoop now sendOk q ts).queue = q
      ∧ ((flushLoop now sendOk q ts).sendFailed = true →
          ∃ mf tl, (flushLoop now sendOk q ts).queue = mf :: tl
            ∧ (flushLoop now sendOk q ts).attempted
                = (flushLoop now sendOk q ts).sent ++ [mf]
            ∧ sendOk mf = false)
      ∧ ((flushLoop now sendOk q ts).sendFailed = false →
          (flushLoop now sendOk q ts).attempted = (flushLoop now sendOk q ts).sent) := by
  intro q
  induction q with
  | nil =>
      intro ts
      refine ⟨rfl, ?_, fun _ => rfl⟩
      intro h
      simp [flushLoop] at h
  | cons m rest ih =>
      intro ts
      simp only [flushLoop]
      split
      · split
        next hsend =>
          refine ⟨?_, ?_, ?_⟩
          · simpa using (ih _).1
          · intro h
            rcases (ih _).2.1 (by simpa using h) with ⟨mf, tl, h1, h2, h3⟩
            exact ⟨mf, tl, by simpa using h1, by simp [h2], h3⟩
          · intro h
            simpa using (ih _).2.2 (by simpa using h)
        next hsend =>
          refine ⟨rfl, ?_, ?_⟩
          · intro _
            exact ⟨m, rest, rfl, rfl, by simpa using hsend⟩
          · intro h
            simp at h
      · refine ⟨rfl, ?_, fun _ => rfl⟩
        intro h
        simp at h

/-- C3: the outbound flush preserves FIFO order.  For every manager
state, the messages sent by processMessageQueue followed by the
remaining queue reconstruct the original queue exactly (no reordering);
the state keeps exactly that remaining queue; when a send fails the
failed message is back at the head of the remaining queue, the attempt
sequence is exactly the sent messages followed by that one failed
message (so a message enqueued later is never attempted before it), and
the flush stops there surfacing the recoverable send error; when no
send fails, exactly the sent messages were attempted. -/
theorem flush_preserves_fifo {M : Type} (now : ℤ) (sendOk : M → Bool)
    (s : GeminiState M) :
    (processMessageQueue now sendOk s).2.sent
        ++ (processMessageQueue now sendOk s).2.queue = s.messageQueue
    ∧ (processMessageQueue now sendOk s).1.messageQueue
        = (processMessageQueue now sendOk s).2.queue
    ∧ ((processMessageQueue now sendOk s).2.sendFailed = true →
        ∃ mf tl, (processMessageQueue now sendOk s).2.queue = mf :: tl
          ∧ (processMessageQueue now sendOk s).2.attempted
              = (processMessageQueue now sendOk s).2.sent ++ [mf]
          ∧ sendOk mf = false)
    ∧ ((processMessageQueue now sendOk s).2.sendFailed = false →
        (processMessageQueue now sendOk s).2.attempted
          = (processMessageQueue now sendOk s).2.sent)
    ∧ sendFailedError.recoverable = true := by
  unfold processMessageQueue
  split
  · refine ⟨rfl, rfl, ?_, fun _ => rfl, rfl⟩
    intro h
    simp at h
  · have h := flushLoop_fifo now sendOk s.messageQueue s.messageTimestamps
    exact ⟨h.1, rfl, h.2.1, h.2.2, rfl⟩

/-- A send oracle that fails exactly on message 1. -/
def sendOkNotOne : ℕ → Bool := fun m => decide (m ≠ 1)

/-- A connected manager with messages 1, 2, 3 queued. -/
def queuedState : GeminiState ℕ :=
  { gemConnected ℕ with messageQueue := [1, 2, 3] }

/-- C3 witness: on the concrete queue [1, 2, 3] whose head send fails,
the queue is reconstructed unchanged, message 1 is back at the head,
and only message 1 was attempted — messages 2 and 3 were never tried. -/
theorem flush_preserves_fifo_witness :
    (processMessageQueue 0 sendOkNotOne queuedState).2.sent
        ++ (processMessageQueue 0 sendOkNotOne queuedState).2.queue = [1, 2, 3]
    ∧ (∃ mf tl, (processMessageQueue 0 sendOkNotOne queuedState).2.queue = mf :: tl
        ∧ (processMessageQueue 0 sendOkNotOne queuedState).2.attempted
            = (processMessageQueue 0 sendOkNotOne queuedState).2.sent ++ [mf]
        ∧ sendOkNotOne mf = false) := by
  have h := flush_preserves_fifo 0 sendOkNotOne queuedState
  exact ⟨h.1, h.2.2.1 rfl⟩

/-! ## Claim C2 -/

/-- A connected manager whose rate-limit window holds k send
timestamps, all at time `now`. -/
def windowState (M : Type) (now : ℤ) (k : ℕ) : GeminiState M :=
  { gemConnected M with messageTimestamps := List.replicate k now }

theorem filter_replicate_window (now : ℤ) (k : ℕ) :
    (List.replicate k now).filter (fun t => now - t < messageWindow)
      = List.replicate k now := by
  apply List.filter_eq_self.mpr
  intro a ha
  rw [List.eq_of_mem_replicate ha]
  simp [messageWindow]

theorem flushLoop_allOk {M : Type} (now : ℤ) (sendOk : M → Bool)
    (hok : ∀ x, sendOk x = true) :
    ∀ (q : List M) (ts : List ℤ), (flushLoop now sendOk q ts).sendFailed = false := by
  intro q
  induction q with
  | nil => intro ts; rfl
  | cons m rest ih =>
      intro ts
      simp only [flushLoop]
      split
      · rw [hok m]
        simpa using ih _
      · rfl

/-- The common rejection path of sendMessage: when the trailing window
already holds the cap, the call throws the non-recoverable rate-limit
error, enqueues nothing and sends nothing. -/
theorem sendMessage_rate_limited {M : Type} (now : ℤ) (sendOk : M → Bool)
    (m : M) (s : GeminiState M)
    (h : (s.messageTimestamps.filter (fun t => now - t < messageWindow)).length
        = maxMessagesPerMinute) :
    (sendMessage now sendOk m s).thrown = some rateLimitError
    ∧ rateLimitError.recoverable = false
    ∧ (sendMessage now sendOk m s).state.messageQueue = s.messageQueue
    ∧ (sendMessage now sendOk m s).sent = [] := by
  have hnot : ¬ ((s.messageTimestamps.filter (fun t => now - t < messageWindow)).length
      < maxMessagesPerMinute) := by
    rw [h]
    omega
  refine ⟨?_, rfl, ?_, ?_⟩ <;> simp [sendMessage, canSendMessage, hnot]

/-- One successful sendMessage on a connected manager with k < 100
timestamps in the window: the message is sent immediately and the
window grows by one timestamp. -/
theorem sendMessage_window_step {M : Type} (now : ℤ) (m : M) (k : ℕ)
    (hk : k < 100) :
    sendMessage now (fun _ => true) m (windowState M now k)
      = { state := windowState M now (k + 1), thrown := none, sent := [m] } := by
  have hfilter := filter_replicate_window now k
  have hc : (canSendMessage now (windowState M now k)).1 = true := by
    simp [canSendMessage, windowState, gemConnected, geminiInitial, hfilter,
      maxMessagesPerMinute, hk]
  simp only [sendMessage, hc, if_true]
  simp [canSendMessage, processMessageQueue, windowState, gemConnected,
    geminiInitial, hfilter, flushLoop, maxMessagesPerMinute, hk,
    List.replicate_succ']

theorem iterateSends_window {M : Type} (now : ℤ) :
    ∀ (msgs : List M) (k : ℕ), k + msgs.length ≤ 100 →
      iterateSends now (fun _ => true) msgs (windowState M now k)
        = (windowState M now (k + msgs.length), true) := by
  intro msgs
  induction msgs with
  | nil => intro k hk; simp [iterateSends]
  | cons m ms ih =>
      intro k hk
      rw [List.length_cons] at hk
      have hk1 : k < 100 := by omega
      have step := sendMessage_window_step (M := M) now m k hk1
      have ihr := ih (k + 1) (by omega)
      simp only [iterateSends, List.foldl_cons] at ihr ⊢
      rw [step]
      rw [List.length_cons]
      have harith : k + (ms.length + 1) = k + 1 + ms.length := by omega
      rw [harith]
      simpa using ihr

/-- C2: when the sliding window over the trailing 60 seconds already
holds 100 send timestamps, sendMessage throws the non-recoverable
rate-limit error without enqueuing or sending anything; once the window
count at a later time is below the cap (e.g. after the oldest timestamp
aged out), sendMessage no longer throws the rate-limit error — and with
all sends succeeding it throws nothing at all; in particular, starting
from a connected manager with an empty window, 100 sendMessage calls
within one window all succeed and the 101st throws the rate-limit
error. -/
theorem sliding_window_rate_limit (M : Type) (now later : ℤ)
    (sendOk : M → Bool) (m : M) (s : GeminiState M) :
    ((s.messageTimestamps.filter (fun t => now - t < messageWindow)).length
        = maxMessagesPerMinute →
      (sendMessage now sendOk m s).thrown = some rateLimitError
      ∧ rateLimitError.recoverable = false
      ∧ (sendMessage now sendOk m s).state.messageQueue = s.messageQueue
      ∧ (sendMessage now sendOk m s).sent = [])
    ∧ ((s.messageTimestamps.filter (fun t => later - t < messageWindow)).length
          < maxMessagesPerMinute →
        (sendMessage later sendOk m s).thrown ≠ some rateLimitError
        ∧ ((∀ x, sendOk x = true) → (sendMessage later sendOk m s).thrown = none))
    ∧ (∀ msgs : List M, msgs.length = 100 →
        iterateSends now (fun _ => true) msgs (gemConnected M)
          = ({ gemConnected M with messageTimestamps := List.replicate 100 now }, true)
        ∧ (sendMessage now (fun _ => true) m
              (iterateSends now (fun _ => true) msgs (gemConnected M)).1).thrown
            = some rateLimitError) := by
  refine ⟨sendMessage_rate_limited now sendOk m s, ?_, ?_⟩
  · intro h
    have hc : (canSendMessage later s).1 = true := by
      simp [canSendMessage, maxMessagesPerMinute]
      exact h
    constructor
    · simp only [sendMessage, hc, if_true]
      split <;> simp [sendFailedError, rateLimitError, createError]
    · intro hok
      have hfail := flushLoop_allOk later sendOk hok
      simp only [sendMessage, hc, if_true, processMessageQueue]
      split <;> simp [hfail]
  · intro msgs hlen
    have h0 : windowState M now 0 = gemConnected M := rfl
    have hiter := iterateSends_window (M := M) now msgs 0 (by omega)
    rw [h0, hlen] at hiter
    simp only [Nat.zero_add] at hiter
    have hiter2 : iterateSends now (fun _ => true) msgs (gemConnected M)
        = (windowState M now 100, true) := hiter
    refine ⟨hiter2.trans (by rfl), ?_⟩
    rw [hiter2]
    have h100 : ((windowState M now 100).messageTimestamps.filter
        (fun t => now - t < messageWindow)).length = maxMessagesPerMinute := by
      show ((List.replicate 100 now).filter (fun t => now - t < messageWindow)).length
          = maxMessagesPerMinute
      rw [filter_replicate_window]
      simp [maxMessagesPerMinute]
    exact (sendMessage_rate_limited now (fun _ => true) m (windowState M now 100) h100).1

/-- C2 witness: with all 100 window slots used at time 0, the 101st
send at time 0 is rejected; at time 70000 (oldest aged out) the send
succeeds; and the packaged 100-sends-then-one scenario rejects the
101st message. -/
theorem sliding_window_rate_limit_witness :
    (sendMessage 0 (fun _ => true) 7 (windowState ℕ 0 100)).thrown = some rateLimitError
    ∧ (sendMessage 70000 (fun _ => true) 7 (windowState ℕ 0 100)).thrown = none
    ∧ (sendMessage 0 (fun _ => true) 7
        (iterateSends 0 (fun _ => true) (List.replicate 100 0) (gemConnected ℕ)).1).thrown
      = some rateLimitError := by
  have h := sliding_window_rate_limit ℕ 0 70000 (fun _ => true) 7 (windowState ℕ 0 100)
  exact ⟨(h.1 (by decide)).1,
         (h.2.1 (by decide)).2 (fun x => rfl),
         (h.2.2 (List.replicate 100 0) (by simp)).2⟩

/-! ## Claim C6 -/

/-- A session manager captured mid-reconnection: one backoff step has
already incremented the retry counter (reachable e.g. when `cleanup` is
invoked while the first reconnection attempt is in flight). -/
def gemRetrying : GeminiState ℕ :=
  { gemConnected ℕ with
    status := GeminiConnectionStatus.reconnecting
    reconnectAttempts := 1 }

/-- C6 counterexample: GeminiConnectionManager.cleanup does not touch
the reconnect counter — calling cleanup twice in a row on a manager
whose counter is 1 leaves the counter at 1, not 0 as the claim states. -/
theorem gemini_cleanup_keeps_retry_counter :
    (geminiCleanup (geminiCleanup gemRetrying)).reconnectAttempts = 1
    ∧ ¬ ((geminiCleanup (geminiCleanup gemRetrying)).reconnectAttempts = 0) := by
  exact ⟨rfl, by decide⟩

/-- C6 (amended): cleanup is idempotent on both components and, from any
state, leaves the pipeline Inactive with its retry counter reset to 0,
and leaves the session manager Disconnected with empty outbound queue,
empty rate-limit window, no heartbeat and no socket — but the session
manager's reconnect counter is left unchanged by cleanup (it is reset
only by a successful connection). -/
theorem cleanup_idempotent_inert (s : AudioState) (M : Type) (g : GeminiState M) :
    (audioCleanup (audioCleanup s).1).1 = (audioCleanup s).1
    ∧ (audioCleanup s).1.status = AudioStatus.inactive
    ∧ (audioCleanup s).1.retryCount = 0
    ∧ geminiCleanup (geminiCleanup g) = geminiCleanup g
    ∧ (geminiCleanup g).status = GeminiConnectionStatus.disconnected
    ∧ (geminiCleanup g).messageQueue = []
    ∧ (geminiCleanup g).messageTimestamps = []
    ∧ (geminiCleanup g).heartbeatInterval = none
    ∧ (geminiCleanup g).ws = none
    ∧ (geminiCleanup g).reconnectAttempts = g.reconnectAttempts := by
  refine ⟨?_, rfl, rfl, rfl, rfl, rfl, rfl, rfl, rfl, rfl⟩
  cases hc : s.audioContext with
  | none => simp [audioCleanup, hc]
  | some c => cases c <;> simp [audioCleanup, hc]

/-! ## Claim C1 -/

/-- C1 (evaluation of the code at the claim's failing input, and the
general fact behind it): when `initialize` hits three consecutive
recoverable StreamCreationFailed failures, the pipeline does NOT reach
the Error state after the 3rd failure — it performs a 4th setup attempt
and ends Active with nothing re-raised, because `attemptRecovery`
invokes `cleanup()`, which resets the retry counter to 0 (line 319)
right after `handleError` incremented it, so the `retryCount <
maxRetries` guard always sees 0.  In general, any number f of
consecutive recoverable failures ends with a successful attempt number
f + 1, never in the Error state. -/
theorem runInitialize_succ (cfg : AudioConfigOverride) (f fuel : ℕ)
    (s : AudioState) (h : s.retryCount < maxRetries) :
    runInitialize cfg (f + 1) (fuel + 1) s
      = Option.map (fun r => { r with attempts := r.attempts + 1 })
          (runInitialize cfg f fuel
            { audioInitial with currentConfig := mergeConfig defaultConfig cfg }) := by
  simp only [runInitialize, updateStatus]
  rw [if_pos (show s.retryCount < maxRetries from h)]
  rfl

theorem three_failures_do_not_error :
    (∃ r, runInitialize {} 3 4 audioInitial = some r
      ∧ r.attempts = 4
      ∧ r.state.status = AudioStatus.active
      ∧ r.threw = false)
    ∧ ∀ (cfg : AudioConfigOverride) (f : ℕ) (s : AudioState), s.retryCount = 0 →
        ∃ r, runInitialize cfg f (f + 1) s = some r
          ∧ r.attempts = f + 1
          ∧ r.state.status = AudioStatus.active
          ∧ r.threw = false := by
  have hgen : ∀ (cfg : AudioConfigOverride) (f : ℕ) (s : AudioState), s.retryCount = 0 →
      ∃ r, runInitialize cfg f (f + 1) s = some r
        ∧ r.attempts = f + 1
        ∧ r.state.status = AudioStatus.active
        ∧ r.threw = false := by
    intro cfg f
    induction f with
    | zero =>
        intro s h0
        exact ⟨_, rfl, rfl, rfl, rfl⟩
    | succ f ih =>
        intro s h0
        rw [runInitialize_succ cfg f (f + 1) s (by rw [h0]; norm_num [maxRetries])]
        obtain ⟨r, hr, ha, hs, ht⟩ :=
          ih { audioInitial with currentConfig := mergeConfig defaultConfig cfg } rfl
        rw [hr]
        exact ⟨_, rfl, by simp [ha], hs, ht⟩
  exact ⟨by simpa using hgen {} 3 audioInitial rfl, hgen⟩

/-- C1 witness: the general statement applied at the concrete scenario
of 3 consecutive failures from the fresh pipeline. -/
theorem three_failures_do_not_error_witness :
    ∃ r, runInitialize {} 3 4 audioInitial = some r
      ∧ r.attempts = 4
      ∧ r.state.status = AudioStatus.active
      ∧ r.threw = false :=
  three_failures_do_not_error.2 {} 3 audioInitial rfl

/-! ## Claim C5 -/

/-- A pipeline captured while an initialize call is in flight (the
status was just set to Initializing). -/
def midInitializingState : AudioState :=
  { audioInitial with status := AudioStatus.initializing }

/-- C5 counterexample: an initialize call issued while the pipeline is
already Initializing is not rejected — it runs a full second setup
sequence (one setup attempt is performed) and drives the pipeline to
Active. -/
theorem reentrant_initialize_not_rejected :
    ∃ r, runInitialize {} 0 1 midInitializingState = some r
      ∧ r.attempts = 1
      ∧ r.state.status = AudioStatus.active := by
  exact ⟨_, rfl, rfl, rfl⟩

/-- C5 (amended): initialize never rejects a re-entrant call — its
behaviour is entirely independent of the pipeline status at the time of
the call (in particular of status Initializing), and every run that
settles performs at least one setup attempt. -/
theorem initialize_ignores_status (cfg : AudioConfigOverride) (f fuel : ℕ)
    (s : AudioState) (st : AudioStatus) :
    runInitialize cfg f fuel { s with status := st } = runInitialize cfg f fuel s
    ∧ (∀ r, runInitialize cfg f fuel s = some r → 1 ≤ r.attempts) := by
  constructor
  · cases fuel with
    | zero => cases f <;> rfl
    | succ n => cases f <;> rfl
  · intro r h
    cases fuel with
    | zero => simp [runInitialize] at h
    | succ n =>
        cases f with
        | zero =>
            simp only [runInitialize, updateStatus] at h
            cases h
            simp
        | succ f2 =>
            simp only [runInitialize, updateStatus] at h
            split at h
            · obtain ⟨a, hxa, hfa⟩ := Option.map_eq_some'.mp h
              rw [← hfa]
              simp
            · cases h
              simp

/-- C5 witness: the amended statement at the concrete in-flight state —
the re-entrant call behaves exactly like a call on the fresh pipeline
and performs a setup attempt. -/
theorem initialize_ignores_status_witness :
    runInitialize {} 0 1 midInitializingState = runInitialize {} 0 1 audioInitial
    ∧ ∃ r, runInitialize {} 0 1 audioInitial = some r ∧ 1 ≤ r.attempts := by
  have h := initialize_ignores_status {} 0 1 audioInitial AudioStatus.initializing
  exact ⟨h.1, ⟨_, rfl, h.2 _ rfl⟩⟩

end InterviewGenie
